import Mathlib

/-!
# Verification of the lightweight CSV validator (`etl/validate.py`)

A shallow embedding of the validation engine in `etl/validate.py`:
the schema/config model, the dataset model (all cells kept as raw text,
a missing cell being pandas `NaN`, embedded as `Option String`), the
strict Email/Date/Time format validators, the type-coercion check, the
five rule-evaluation stages of `validate_csv`, the report builder, and
the CLI exit-code dispatch of `_cli`.

Conventions:
* a pandas cell is `Option String` (`none` = `NaN`);
* `str.strip()` is `pyStrip` (whitespace trimming over the char list);
* Python's `datetime.strptime` is embedded by a small interpreter over
  the format directives actually reachable here (`%Y %m %d %H %M %S`,
  literals, `%%`), following CPython `_strptime` semantics: `%Y` is
  exactly four digits, `%m`/`%d`/`%H`/`%M`/`%S` accept one or two digits
  with the usual value ranges, the whole input must be consumed, and the
  resulting fields must form a constructible `datetime` (real calendar
  date, year between 1 and 9999, seconds 0–59).
-/

namespace EtlValidate

/-- A pandas cell read with `dtype=str`: `none` models `NaN`. -/
abbrev Cell := Option String

/-- Python's `str.strip()`: drop leading and trailing whitespace.
(Defined over the character list so that it evaluates inside the kernel.) -/
def pyStrip (s : String) : String :=
  ⟨((s.toList.dropWhile Char.isWhitespace).reverse.dropWhile Char.isWhitespace).reverse⟩

/-- `astype(str)` rendering of a cell (pandas renders `NaN` as `"nan"`). -/
def cellToStr : Cell → String
  | none => "nan"
  | some s => s

/-- The null mask of `validate_csv` stage 2: `isna() | str.strip().eq("")`. -/
def isNullCell : Cell → Bool
  | none => true
  | some s => pyStrip s == ""

/-- A cell that is present and does not trim to the empty string. -/
def isNonBlankCell : Cell → Bool
  | none => false
  | some s => pyStrip s != ""

-- ## Strict email check (`_EMAIL_RE` and `validate_email_strict`)

/-- Characters of the regex class `[A-Za-z0-9._%+-]` (local part). -/
def isLocalChar (c : Char) : Bool :=
  c.isAlpha || c.isDigit || c == '.' || c == '_' || c == '%' || c == '+' || c == '-'

/-- Characters of the regex class `[A-Za-z0-9.-]` (domain part). -/
def isDomainChar (c : Char) : Bool :=
  c.isAlpha || c.isDigit || c == '.' || c == '-'

/-- Matcher for the domain side `[A-Za-z0-9.-]+\.[A-Za-z]{2,}$` of `_EMAIL_RE`.
Since the top-level-domain piece `[A-Za-z]{2,}$` runs to the end and contains
no dot, the dot consumed by `\.` is necessarily the last dot of the string,
and the letters after it are exactly the maximal alphabetic suffix. -/
def matchesDomainRe (d : List Char) : Bool :=
  let rev := d.reverse
  let tld := rev.takeWhile Char.isAlpha
  match rev.drop tld.length with
  | '.' :: pre => decide (2 ≤ tld.length) && decide (pre ≠ []) && pre.all isDomainChar
  | _ => false

/-- Matcher for `_EMAIL_RE = ^[A-Za-z0-9._%+-]+@[A-Za-z0-9.-]+\.[A-Za-z]{2,}$`.
Neither character class contains `@`, so the local part of any match is
exactly the prefix before the first `@`. -/
def matchesEmailRe (cs : List Char) : Bool :=
  let l := cs.takeWhile (fun c => c != '@')
  match cs.drop l.length with
  | [] => false
  | _ :: d => decide (l ≠ []) && l.all isLocalChar && matchesDomainRe d

/-- `validate_email_strict`: `None`/blank fail, otherwise strip and match. -/
def validate_email_strict : Cell → Bool
  | none => false
  | some s =>
    let v := pyStrip s
    if v = "" then false else matchesEmailRe v.toList

-- ## A small `datetime.strptime` interpreter

/-- Calendar helper: Gregorian leap year. -/
def isLeapYear (y : Nat) : Bool :=
  (y % 4 == 0 && y % 100 != 0) || y % 400 == 0

/-- Calendar helper: days in a month (month assumed in 1..12). -/
def daysInMonth (y m : Nat) : Nat :=
  if m = 2 then (if isLeapYear y then 29 else 28)
  else if m = 4 ∨ m = 6 ∨ m = 9 ∨ m = 11 then 30
  else 31

/-- Digits to a number, most significant first. -/
def digitsToNat (ds : List Char) : Nat :=
  ds.foldl (fun n c => n * 10 + (c.toNat - 48)) 0

/-- Read exactly `n` leading digits; return their value and the rest. -/
def takeDigits (n : Nat) (cs : List Char) : Option (Nat × List Char) :=
  let ds := cs.take n
  if ds.length = n ∧ ds.all Char.isDigit then some (digitsToNat ds, cs.drop n)
  else none

/-- Read exactly `n` leading digits whose value lies in `[lo, hi]`. -/
def takeNum (n lo hi : Nat) (cs : List Char) : Option (Nat × List Char) :=
  match takeDigits n cs with
  | some (v, rest) => if lo ≤ v ∧ v ≤ hi then some (v, rest) else none
  | none => none

/-- The fields `strptime` accumulates, with CPython's defaults. -/
structure TMFields where
  y : Nat
  mo : Nat
  dy : Nat
  hh : Nat
  mi : Nat
  ss : Nat
  deriving DecidableEq, Repr

def tmDefault : TMFields := ⟨1900, 1, 1, 0, 0, 0⟩

/-- Whether the parsed fields yield a constructible `datetime`:
year in `1..9999`, a real calendar day, seconds below 60.  Month and the
remaining ranges are enforced by the directive grammar itself. -/
def tmValid (tm : TMFields) : Bool :=
  decide (1 ≤ tm.y) && decide (tm.y ≤ 9999) && decide (tm.dy ≤ daysInMonth tm.y tm.mo)
    && decide (tm.ss ≤ 59)

/-- Interpreter for `datetime.strptime(data, fmt)` as a recognizer, over the
format directives reachable from `etl/validate.py` (`%Y %m %d %H %M %S`,
`%%`, literal characters).  Two-digit and one-digit alternatives of a
directive are both tried, mirroring regex backtracking; `%d` additionally
tries CPython's space-padded single-digit alternative `" [1-9]"` (present
in `_strptime`'s day regex for ANSI-C `%c` compatibility).  A whitespace
character in the format consumes a nonempty whitespace run of the input.
Any other `%`-directive is modelled as failing to match. -/
def strptimeAux : List Char → List Char → TMFields → Bool
  | [], cs, tm => cs.isEmpty && tmValid tm
  | '%' :: 'Y' :: fs, cs, tm =>
    (match takeDigits 4 cs with
     | some (v, rest) => strptimeAux fs rest { tm with y := v }
     | none => false)
  | '%' :: 'm' :: fs, cs, tm =>
    (match takeNum 2 1 12 cs with
     | some (v, rest) => strptimeAux fs rest { tm with mo := v }
     | none => false) ||
    (match takeNum 1 1 12 cs with
     | some (v, rest) => strptimeAux fs rest { tm with mo := v }
     | none => false)
  | '%' :: 'd' :: fs, cs, tm =>
    (match takeNum 2 1 31 cs with
     | some (v, rest) => strptimeAux fs rest { tm with dy := v }
     | none => false) ||
    (match takeNum 1 1 31 cs with
     | some (v, rest) => strptimeAux fs rest { tm with dy := v }
     | none => false) ||
    (match cs with
     | c0 :: cs' =>
       (c0 == ' ') &&
         (match takeNum 1 1 9 cs' with
          | some (v, rest) => strptimeAux fs rest { tm with dy := v }
          | none => false)
     | [] => false)
  | '%' :: 'H' :: fs, cs, tm =>
    (match takeNum 2 0 23 cs with
     | some (v, rest) => strptimeAux fs rest { tm with hh := v }
     | none => false) ||
    (match takeNum 1 0 23 cs with
     | some (v, rest) => strptimeAux fs rest { tm with hh := v }
     | none => false)
  | '%' :: 'M' :: fs, cs, tm =>
    (match takeNum 2 0 59 cs with
     | some (v, rest) => strptimeAux fs rest { tm with mi := v }
     | none => false) ||
    (match takeNum 1 0 59 cs with
     | some (v, rest) => strptimeAux fs rest { tm with mi := v }
     | none => false)
  | '%' :: 'S' :: fs, cs, tm =>
    (match takeNum 2 0 59 cs with
     | some (v, rest) => strptimeAux fs rest { tm with ss := v }
     | none => false) ||
    (match takeNum 1 0 59 cs with
     | some (v, rest) => strptimeAux fs rest { tm with ss := v }
     | none => false)
  | '%' :: '%' :: fs, cs, tm =>
    (match cs with
     | '%' :: cs' => strptimeAux fs cs' tm
     | _ => false)
  | '%' :: _ :: _, _, _ => false
  | ['%'], _, _ => false
  | c :: fs, cs, tm =>
    if c.isWhitespace then
      decide ((cs.takeWhile Char.isWhitespace) ≠ []) &&
        strptimeAux fs (cs.dropWhile Char.isWhitespace) tm
    else
      (match cs with
       | c' :: cs' => c == c' && strptimeAux fs cs' tm
       | [] => false)

/-- `datetime.strptime(v, fmt)` succeeds (as a Boolean recognizer). -/
def strptimeBool (fmt v : String) : Bool :=
  strptimeAux fmt.toList v.toList tmDefault

/-- `validate_date_strict(value, fmt)`, default format `"%Y-%m-%d"`. -/
def validate_date_strict (value : Cell) (fmt : String := "%Y-%m-%d") : Bool :=
  match value with
  | none => false
  | some s =>
    let v := pyStrip s
    if v = "" then false else strptimeBool fmt v

/-- `validate_time_strict(value, fmt)`, default format `"%H:%M:%S"`. -/
def validate_time_strict (value : Cell) (fmt : String := "%H:%M:%S") : Bool :=
  match value with
  | none => false
  | some s =>
    let v := pyStrip s
    if v = "" then false else strptimeBool fmt v

-- ## Type-coercion check (`_coerce_and_check_series`)

/-- Exponent suffix of a float literal: empty, or `e`/`E`, optional sign,
one or more digits. -/
def parseExpPart (cs : List Char) : Bool :=
  match cs with
  | [] => true
  | 'e' :: r => (let r2 := match r with | '+' :: t => t | '-' :: t => t | t => t
                 decide (r2 ≠ []) && r2.all Char.isDigit)
  | 'E' :: r => (let r2 := match r with | '+' :: t => t | '-' :: t => t | t => t
                 decide (r2 ≠ []) && r2.all Char.isDigit)
  | _ => false

/-- Model of the numeric parser behind `pd.to_numeric(..., errors="coerce")`
applied to a string cell, as the predicate "the coerced value is not `NaN`":
surrounding whitespace is ignored, an optional sign, then either an
infinity word or a decimal literal (digits, optional fraction, optional
exponent).  The word `nan` parses to `NaN` and therefore counts as a
failure, exactly like an unparseable string, so it is rejected here. -/
def pdParseNumeric (s : String) : Bool :=
  let cs0 := (pyStrip s).toList
  let cs := match cs0 with | '+' :: r => r | '-' :: r => r | r => r
  if (cs.map Char.toLower) = "inf".toList ∨ (cs.map Char.toLower) = "infinity".toList then
    true
  else
    let ip := cs.takeWhile Char.isDigit
    let r1 := cs.drop ip.length
    match r1 with
    | '.' :: r2 =>
      let fp := r2.takeWhile Char.isDigit
      let r3 := r2.drop fp.length
      decide (ip ≠ [] ∨ fp ≠ []) && parseExpPart r3
    | _ => decide (ip ≠ []) && parseExpPart r1

/-- Model of pandas free-form datetime parsing
(`pd.to_datetime(..., errors="coerce")` on a string cell).  The exact
accepted language of that parser is irrelevant to every property proved
below (which only depend on which cells are exempt from the check and on
the empty series); it is modelled as recognizing common ISO-style
date/datetime strings. -/
def pdParseTimestamp (s : String) : Bool :=
  strptimeBool "%Y-%m-%d" s || strptimeBool "%Y-%m-%d %H:%M:%S" s ||
    strptimeBool "%Y/%m/%d" s || strptimeBool "%d/%m/%Y" s

/-- The failure mask of `_coerce_and_check_series` for one cell:
`coerced.isna() & ser.notna() & (ser.str.strip() != "")`. -/
def cellFailsCoercion (parse : String → Bool) : Cell → Bool
  | none => false
  | some s => (pyStrip s != "") && !(parse s)

/-- The result dict of `_coerce_and_check_series`. -/
structure CoerceResult where
  success : Bool
  failed_count : Nat
  sample_values : List String
  deriving DecidableEq, Repr

/-- `_coerce_and_check_series(df_col, desired_type)`.  The `timestamp`
branch's `except` fallback is unreachable for string input under
`errors="coerce"` and is not modelled. -/
def coerce_and_check_series (cells : List Cell) (desired_type : String) : CoerceResult :=
  if desired_type = "string" ∨ desired_type = "str" ∨ desired_type = "object" then
    ⟨true, 0, []⟩
  else if desired_type = "int" ∨ desired_type = "integer" then
    let failed := cells.filter (cellFailsCoercion pdParseNumeric)
    ⟨decide (failed.length = 0), failed.length, (failed.take 10).map cellToStr⟩
  else if desired_type = "float" ∨ desired_type = "numeric" ∨ desired_type = "number" then
    let failed := cells.filter (cellFailsCoercion pdParseNumeric)
    ⟨decide (failed.length = 0), failed.length, (failed.take 10).map cellToStr⟩
  else if desired_type = "timestamp" ∨ desired_type = "datetime" ∨ desired_type = "date" then
    let failed := cells.filter (cellFailsCoercion pdParseTimestamp)
    ⟨decide (failed.length = 0), failed.length, (failed.take 10).map cellToStr⟩
  else
    ⟨true, 0, []⟩

-- ## Schema/config, dataset, findings, report

/-- The normalized configuration returned by `load_config`.  The
`validations` mapping is only ever read at the keys `"Date"` and `"Time"`
(via `.get`); `vEmail` records a possible `"Email"` entry, which no check
consults. -/
structure Config where
  col_types : List (String × String)
  required : List String
  unique_keys : List String
  vDate : Option String
  vTime : Option String
  vEmail : Option String
  deriving DecidableEq, Repr

/-- The in-memory table produced by `pd.read_csv(csv_p, dtype=str)`:
named columns of raw-text cells, plus the row count `df.shape[0]`. -/
structure Dataset where
  columns : List (String × List Cell)
  nrows : Nat
  deriving DecidableEq, Repr

/-- `col in df.columns`. -/
def Dataset.hasCol (df : Dataset) (c : String) : Bool :=
  df.columns.any (fun p => p.1 == c)

/-- `df[col]` (the empty series when the column is absent). -/
def Dataset.getCol (df : Dataset) (c : String) : List Cell :=
  match df.columns.find? (fun p => p.1 == c) with
  | some p => p.2
  | none => []

/-- Well-formedness of a loaded table: every column holds one cell per row. -/
def Dataset.wf (df : Dataset) : Prop :=
  ∀ p ∈ df.columns, p.2.length = df.nrows

instance (df : Dataset) : Decidable df.wf := by
  unfold Dataset.wf; infer_instance

/-- One failing-expectation record appended by `validate_csv`, one
constructor per expectation kind. -/
inductive Finding where
  | columnMissing (column : String) (reason : String)
  | nullValuesPresent (column : String) (unexpected_count : Nat) (sample_values : List String)
  | duplicateValues (column : String) (duplicate_count : Nat) (sample_values : List Cell)
  | typeCoercionFailed (column : String) (desired_type : String) (failed_count : Nat)
      (sample_values : List String)
  | strictFormatInvalid (column : String) (invalid_count : Nat) (sample_values : List String)
      (expected_format : Option String)
  deriving DecidableEq, Repr

/-- `Series.unique()`: distinct values in first-seen order. -/
def firstSeenUnique {α : Type} [DecidableEq α] (seen : List α) : List α → List α
  | [] => []
  | x :: xs =>
    if x ∈ seen then firstSeenUnique seen xs
    else x :: firstSeenUnique (x :: seen) xs

-- ## The five rule-evaluation stages of `validate_csv`

/-- Stage 1: required columns exist. -/
def existenceFindings (required : List String) (df : Dataset) : List Finding :=
  required.filterMap (fun col =>
    if df.hasCol col then none
    else some (.columnMissing col "column missing"))

/-- Stage 2: required columns that are present have no null/blank cells. -/
def nullFindings (required : List String) (df : Dataset) : List Finding :=
  (required.filter (fun c => df.hasCol c)).filterMap (fun col =>
    let missing := (df.getCol col).filter isNullCell
    if 0 < missing.length then
      some (.nullValuesPresent col missing.length ((missing.take 10).map cellToStr))
    else none)

/-- `df[key].duplicated(keep=False)` for one cell: the value occurs at
least twice in the column (pandas treats `NaN` cells as duplicating each
other). -/
def dupMaskCell (cells : List Cell) (c : Cell) : Bool :=
  decide (2 ≤ cells.count c)

/-- Stage 3: unique-key columns. -/
def uniqueFindings (unique_keys : List String) (df : Dataset) : List Finding :=
  unique_keys.filterMap (fun key =>
    if df.hasCol key then
      let cells := df.getCol key
      let dups := cells.filter (dupMaskCell cells)
      if 0 < dups.length then
        some (.duplicateValues key dups.length ((firstSeenUnique [] dups).take 20))
      else none
    else some (.columnMissing key "column missing (for uniqueness check)"))

/-- Stage 4: type-coercion checks for declared columns that are present. -/
def typeFindings (col_types : List (String × String)) (df : Dataset) : List Finding :=
  col_types.filterMap (fun ct =>
    if df.hasCol ct.1 then
      let check := coerce_and_check_series (df.getCol ct.1) ct.2
      if check.success then none
      else some (.typeCoercionFailed ct.1 ct.2 check.failed_count check.sample_values)
    else none)

/-- The strict-check invalid mask for one Email cell:
`isna() | str.strip().eq("") | ~validate_email_strict`. -/
def emailInvalidCell (c : Cell) : Bool :=
  c.isNone || (c.map pyStrip == some "") || !(validate_email_strict c)

/-- The strict-check invalid mask for one Date cell. -/
def dateInvalidCell (fmt : String) (c : Cell) : Bool :=
  c.isNone || (c.map pyStrip == some "") || !(validate_date_strict c fmt)

/-- The strict-check invalid mask for one Time cell. -/
def timeInvalidCell (fmt : String) (c : Cell) : Bool :=
  c.isNone || (c.map pyStrip == some "") || !(validate_time_strict c fmt)

/-- One strict-format check: run only if the column exists, emit a finding
only if the invalid count is positive. -/
def strictFindingOpt (colName : String) (mask : Cell → Bool) (fmtField : Option String)
    (df : Dataset) : Option Finding :=
  if df.hasCol colName then
    let invalid := (df.getCol colName).filter mask
    if 0 < invalid.length then
      some (.strictFormatInvalid colName invalid.length ((invalid.take 10).map cellToStr) fmtField)
    else none
  else none

/-- Stage 5: the three strict checks, in the fixed order Email, Date, Time. -/
def strictFindings (cfg : Config) (df : Dataset) : List Finding :=
  (strictFindingOpt "Email" emailInvalidCell none df).toList ++
    (strictFindingOpt "Date" (dateInvalidCell (cfg.vDate.getD "%Y-%m-%d"))
      (some (cfg.vDate.getD "%Y-%m-%d")) df).toList ++
    (strictFindingOpt "Time" (timeInvalidCell (cfg.vTime.getD "%H:%M:%S"))
      (some (cfg.vTime.getD "%H:%M:%S")) df).toList

-- ## Report building (`validate_csv` tail)

structure Statistics where
  evaluated_expectations : Nat
  successful_expectations : Nat
  unsuccessful_expectations : Nat
  rows : Nat
  deriving DecidableEq, Repr

structure Report where
  success : Bool
  statistics : Statistics
  results : List Finding
  deriving DecidableEq, Repr

/-- `validate_csv` (the pure part: evaluation and report building; the
path checks and the JSON persistence are I/O). -/
def validate_csv (cfg : Config) (df : Dataset) : Report :=
  let failing :=
    existenceFindings cfg.required df ++
      nullFindings cfg.required df ++
      uniqueFindings cfg.unique_keys df ++
      typeFindings cfg.col_types df ++
      strictFindings cfg df
  let total_expectations :=
    cfg.required.length + cfg.unique_keys.length + cfg.col_types.length + 3
  let unsuccessful := failing.length
  let successful := (max 0 ((total_expectations : Int) - (unsuccessful : Int))).toNat
  { success := unsuccessful == 0
    statistics :=
      { evaluated_expectations := total_expectations
        successful_expectations := successful
        unsuccessful_expectations := unsuccessful
        rows := df.nrows }
    results := failing }

-- ## CLI exit codes (`_cli`)

/-- What the guarded body of `_cli` can do: `validate_csv` returns a
report, or raises file-not-found (for the CSV path or the config path),
or raises some other unexpected exception. -/
inductive CsvOutcome where
  | ok (r : Report)
  | fileNotFound
  | otherError
  deriving DecidableEq, Repr

/-- The exit code `_cli` produces: `0` on success; on a failing report,
`ValidationError` (code 4) if `--raise-on-fail` was given, else `2`;
`FileNotFoundError` maps to `3` and any other exception to `5`
(`sys.exit` raises `SystemExit`, which `except Exception` does not catch). -/
def cliExitCode (o : CsvOutcome) (raiseOnFail : Bool) : Nat :=
  match o with
  | .ok r => if r.success then 0 else if raiseOnFail then 4 else 2
  | .fileNotFound => 3
  | .otherError => 5

-- ## Finding classifiers

/-- A `ColumnMissing` finding for column `c` (any reason). -/
def Finding.isMissingFor (c : String) : Finding → Bool
  | .columnMissing c' _ => c' == c
  | _ => false

/-- The stage-1 `ColumnMissing` finding for column `c` (reason `"column missing"`). -/
def Finding.isExistMissingFor (c : String) : Finding → Bool
  | .columnMissing c' r => c' == c && r == "column missing"
  | _ => false

/-- A `NullValuesPresent` finding for column `c`. -/
def Finding.isNullFor (c : String) : Finding → Bool
  | .nullValuesPresent c' _ _ => c' == c
  | _ => false

/-- A `DuplicateValues` finding for column `c`. -/
def Finding.isDupFor (c : String) : Finding → Bool
  | .duplicateValues c' _ _ => c' == c
  | _ => false

/-- A `StrictFormatInvalid` finding for column `c`. -/
def Finding.isStrictFor (c : String) : Finding → Bool
  | .strictFormatInvalid c' _ _ _ => c' == c
  | _ => false

-- ## Spec-side date predicates (for comparison with the code's parser)

/-- The spec sentence "matches the pattern `YYYY-MM-DD` exactly", read
literally: four digits, hyphen, two digits, hyphen, two digits
(zero-padded), naming an existing calendar date.  This definition follows
the claim's words, to be compared with the code's `validate_date_strict`. -/
def specExactYMD (s : String) : Bool :=
  match s.toList with
  | [y1, y2, y3, y4, '-', m1, m2, '-', d1, d2] =>
    [y1, y2, y3, y4, m1, m2, d1, d2].all Char.isDigit &&
      (let y := digitsToNat [y1, y2, y3, y4]
       let m := digitsToNat [m1, m2]
       let d := digitsToNat [d1, d2]
       decide (1 ≤ y) && decide (1 ≤ m) && decide (m ≤ 12) && decide (1 ≤ d) &&
         decide (d ≤ daysInMonth y m))
  | _ => false

/-- The amended claim's date shape: a 4-digit year, a 1–2 digit month,
and a day that is either 1–2 digits or a space followed by a single
nonzero digit (CPython's `%d` space-padded alternative), separated by
single hyphens, naming an existing calendar date (year within
`datetime`'s 1–9999 range, which is automatic for four digits). -/
def SpecLooseYMD (cs : List Char) : Prop :=
  ∃ ys ms ds : List Char,
    cs = ys ++ '-' :: (ms ++ '-' :: ds) ∧
    ys.length = 4 ∧ ys.all Char.isDigit ∧
    1 ≤ ms.length ∧ ms.length ≤ 2 ∧ ms.all Char.isDigit ∧
    1 ≤ digitsToNat ys ∧ digitsToNat ys ≤ 9999 ∧
    1 ≤ digitsToNat ms ∧ digitsToNat ms ≤ 12 ∧
    ∃ dval : Nat,
      ((1 ≤ ds.length ∧ ds.length ≤ 2 ∧ ds.all Char.isDigit ∧ digitsToNat ds = dval) ∨
       (∃ c, ds = [' ', c] ∧ c.isDigit ∧ digitsToNat [c] = dval ∧ dval ≤ 9)) ∧
      1 ≤ dval ∧ dval ≤ daysInMonth (digitsToNat ys) (digitsToNat ms)

-- ## Generic extraction lemmas

/-- If no image of `g` on `l` satisfies `p`, the filtered `filterMap` is empty. -/
lemma filter_filterMap_nil {α : Type} (l : List α) (g : α → Option Finding)
    (p : Finding → Bool) (h : ∀ x ∈ l, ∀ f, g x = some f → p f = false) :
    (l.filterMap g).filter p = [] := by
  rw [List.filter_eq_nil_iff]
  intro f hf
  obtain ⟨x, hx, hgx⟩ := List.mem_filterMap.1 hf
  simp [h x hx f hgx]

/-- If `c` occurs exactly once in `l` and images of other elements never
satisfy `p`, filtering the `filterMap` by `p` picks out the contribution
of `c` alone. -/
lemma filter_filterMap_count_one {α : Type} [DecidableEq α] (l : List α)
    (g : α → Option Finding) (p : Finding → Bool) (c : α) (h1 : l.count c = 1)
    (h0 : ∀ x ∈ l, x ≠ c → ∀ f, g x = some f → p f = false) :
    (l.filterMap g).filter p = (g c).toList.filter p := by
  induction l with
  | nil => simp at h1
  | cons x xs ih =>
    rw [List.count_cons] at h1
    by_cases hxc : x = c
    · subst hxc
      simp only [beq_self_eq_true, if_true] at h1
      have hnot : x ∉ xs := List.count_eq_zero.1 (by omega)
      have htail : (xs.filterMap g).filter p = [] := by
        refine filter_filterMap_nil xs g p ?_
        intro y hy f hf
        exact h0 y (List.mem_cons_of_mem _ hy) (fun hyx => hnot (hyx ▸ hy)) f hf
      rw [List.filterMap_cons]
      cases hgx : g x with
      | none => simp [hgx, htail]
      | some f => simp [hgx, List.filter_cons, htail]
    · have h1' : xs.count c = 1 := by
        have : (x == c) = false := by simp [hxc]
        rw [this] at h1; simpa using h1
      have h0' : ∀ y ∈ xs, y ≠ c → ∀ f, g y = some f → p f = false := fun y hy =>
        h0 y (List.mem_cons_of_mem _ hy)
      have hhead : ∀ f, g x = some f → p f = false := h0 x (List.mem_cons_self _ _) hxc
      rw [List.filterMap_cons]
      cases hgx : g x with
      | none => exact ih h1' h0'
      | some f => simp [List.filter_cons, hhead f hgx, ih h1' h0']

-- ## Shape lemmas: what each stage can emit

lemma mem_existenceFindings {req : List String} {df : Dataset} {f : Finding}
    (h : f ∈ existenceFindings req df) :
    ∃ c, c ∈ req ∧ df.hasCol c = false ∧ f = .columnMissing c "column missing" := by
  obtain ⟨c, hc, hgc⟩ := List.mem_filterMap.1 h
  by_cases hcol : df.hasCol c
  · simp [existenceFindings, hcol] at hgc
  · refine ⟨c, hc, by simpa using hcol, ?_⟩
    simp [existenceFindings, hcol] at hgc
    exact hgc.symm

lemma mem_nullFindings {req : List String} {df : Dataset} {f : Finding}
    (h : f ∈ nullFindings req df) :
    ∃ c, c ∈ req ∧ df.hasCol c = true ∧
      0 < ((df.getCol c).filter isNullCell).length ∧
      f = .nullValuesPresent c ((df.getCol c).filter isNullCell).length
        ((((df.getCol c).filter isNullCell).take 10).map cellToStr) := by
  obtain ⟨c, hc, hgc⟩ := List.mem_filterMap.1 h
  have hcol : df.hasCol c := (List.mem_filter.1 hc).2
  by_cases hpos : 0 < ((df.getCol c).filter isNullCell).length
  · refine ⟨c, (List.mem_filter.1 hc).1, hcol, hpos, ?_⟩
    simp only [nullFindings] at hgc
    rw [if_pos hpos] at hgc
    exact (Option.some.inj hgc).symm
  · simp only [nullFindings] at hgc
    rw [if_neg hpos] at hgc
    cases hgc

lemma mem_uniqueFindings {keys : List String} {df : Dataset} {f : Finding}
    (h : f ∈ uniqueFindings keys df) :
    ∃ k, k ∈ keys ∧
      ((df.hasCol k = false ∧ f = .columnMissing k "column missing (for uniqueness check)") ∨
       (df.hasCol k = true ∧
        0 < ((df.getCol k).filter (dupMaskCell (df.getCol k))).length ∧
        f = .duplicateValues k ((df.getCol k).filter (dupMaskCell (df.getCol k))).length
          ((firstSeenUnique [] ((df.getCol k).filter (dupMaskCell (df.getCol k)))).take 20))) := by
  obtain ⟨k, hk, hgk⟩ := List.mem_filterMap.1 h
  by_cases hcol : df.hasCol k
  · by_cases hpos : 0 < ((df.getCol k).filter (dupMaskCell (df.getCol k))).length
    · refine ⟨k, hk, Or.inr ⟨hcol, hpos, ?_⟩⟩
      simp only [uniqueFindings] at hgk
      rw [if_pos hcol, if_pos hpos] at hgk
      exact (Option.some.inj hgk).symm
    · simp only [uniqueFindings] at hgk
      rw [if_pos hcol, if_neg hpos] at hgk
      cases hgk
  · refine ⟨k, hk, Or.inl ⟨by simpa using hcol, ?_⟩⟩
    simp only [uniqueFindings] at hgk
    rw [if_neg hcol] at hgk
    exact (Option.some.inj hgk).symm

lemma mem_typeFindings {cts : List (String × String)} {df : Dataset} {f : Finding}
    (h : f ∈ typeFindings cts df) :
    ∃ ct, ct ∈ cts ∧ df.hasCol ct.1 = true ∧
      (coerce_and_check_series (df.getCol ct.1) ct.2).success = false ∧
      f = .typeCoercionFailed ct.1 ct.2
        (coerce_and_check_series (df.getCol ct.1) ct.2).failed_count
        (coerce_and_check_series (df.getCol ct.1) ct.2).sample_values := by
  obtain ⟨ct, hct, hgct⟩ := List.mem_filterMap.1 h
  by_cases hcol : df.hasCol ct.1
  · by_cases hsuc : (coerce_and_check_series (df.getCol ct.1) ct.2).success
    · simp only [typeFindings] at hgct
      rw [if_pos hcol, if_pos hsuc] at hgct
      cases hgct
    · refine ⟨ct, hct, hcol, by simpa using hsuc, ?_⟩
      simp only [typeFindings] at hgct
      rw [if_pos hcol, if_neg hsuc] at hgct
      exact (Option.some.inj hgct).symm
  · simp only [typeFindings] at hgct
    rw [if_neg hcol] at hgct
    cases hgct

lemma mem_strictFindingOpt {name : String} {mask : Cell → Bool} {fmt : Option String}
    {df : Dataset} {f : Finding} (h : f ∈ (strictFindingOpt name mask fmt df).toList) :
    df.hasCol name = true ∧ 0 < ((df.getCol name).filter mask).length ∧
      f = .strictFormatInvalid name ((df.getCol name).filter mask).length
        ((((df.getCol name).filter mask).take 10).map cellToStr) fmt := by
  by_cases hcol : df.hasCol name
  · by_cases hpos : 0 < ((df.getCol name).filter mask).length
    · simp only [strictFindingOpt] at h
      rw [if_pos hcol, if_pos hpos] at h
      simp only [Option.toList_some, List.mem_singleton] at h
      exact ⟨hcol, hpos, h⟩
    · simp only [strictFindingOpt] at h
      rw [if_pos hcol, if_neg hpos] at h
      cases h
  · simp only [strictFindingOpt] at h
    rw [if_neg hcol] at h
    cases h

lemma mem_strictFindings {cfg : Config} {df : Dataset} {f : Finding}
    (h : f ∈ strictFindings cfg df) :
    ∃ name mask fmt, (name = "Email" ∨ name = "Date" ∨ name = "Time") ∧
      df.hasCol name = true ∧ 0 < ((df.getCol name).filter mask).length ∧
      f = .strictFormatInvalid name ((df.getCol name).filter mask).length
        ((((df.getCol name).filter mask).take 10).map cellToStr) fmt := by
  simp only [strictFindings, List.mem_append] at h
  rcases h with (h | h) | h
  · exact ⟨"Email", emailInvalidCell, none, Or.inl rfl,
      (mem_strictFindingOpt h).1, (mem_strictFindingOpt h).2⟩
  · exact ⟨"Date", dateInvalidCell (cfg.vDate.getD "%Y-%m-%d"),
      some (cfg.vDate.getD "%Y-%m-%d"), Or.inr (Or.inl rfl),
      (mem_strictFindingOpt h).1, (mem_strictFindingOpt h).2⟩
  · exact ⟨"Time", timeInvalidCell (cfg.vTime.getD "%H:%M:%S"),
      some (cfg.vTime.getD "%H:%M:%S"), Or.inr (Or.inr rfl),
      (mem_strictFindingOpt h).1, (mem_strictFindingOpt h).2⟩

/-- The findings list of a report, stage by stage. -/
lemma validate_csv_results (cfg : Config) (df : Dataset) :
    (validate_csv cfg df).results =
      existenceFindings cfg.required df ++ nullFindings cfg.required df ++
        uniqueFindings cfg.unique_keys df ++ typeFindings cfg.col_types df ++
        strictFindings cfg df := rfl

-- ## Counting: the findings can never outnumber the evaluated expectations

/-- Stages 1 and 2 together emit at most one finding per required-column
entry: an absent entry yields its existence finding and is excluded from
the null check; a present entry can yield at most a null finding. -/
lemma length_exist_null_le (req : List String) (df : Dataset) :
    (existenceFindings req df).length + (nullFindings req df).length ≤ req.length := by
  induction req with
  | nil => simp [existenceFindings, nullFindings]
  | cons x xs ih =>
    by_cases hx : df.hasCol x
    · have he : existenceFindings (x :: xs) df = existenceFindings xs df := by
        simp [existenceFindings, List.filterMap_cons, hx]
      have hn : (nullFindings (x :: xs) df).length ≤ (nullFindings xs df).length + 1 := by
        simp only [nullFindings, List.filter_cons, hx, if_true, List.filterMap_cons]
        split
        · simp [nullFindings]
        · simp [nullFindings]
      rw [he]
      simp only [List.length_cons]
      omega
    · have he : (existenceFindings (x :: xs) df).length =
          (existenceFindings xs df).length + 1 := by
        simp [existenceFindings, List.filterMap_cons, hx]
      have hn : nullFindings (x :: xs) df = nullFindings xs df := by
        simp [nullFindings, List.filter_cons, hx]
      rw [he, hn]
      simp only [List.length_cons]
      omega

lemma length_uniqueFindings_le (keys : List String) (df : Dataset) :
    (uniqueFindings keys df).length ≤ keys.length := by
  unfold uniqueFindings; exact List.length_filterMap_le _ _

lemma length_typeFindings_le (cts : List (String × String)) (df : Dataset) :
    (typeFindings cts df).length ≤ cts.length := by
  unfold typeFindings; exact List.length_filterMap_le _ _

lemma length_strictFindings_le (cfg : Config) (df : Dataset) :
    (strictFindings cfg df).length ≤ 3 := by
  have h : ∀ (name : String) (mask : Cell → Bool) (fmt : Option String),
      (strictFindingOpt name mask fmt df).toList.length ≤ 1 := by
    intro name mask fmt
    cases strictFindingOpt name mask fmt df <;> simp
  simp only [strictFindings, List.length_append]
  have h1 := h "Email" emailInvalidCell none
  have h2 := h "Date" (dateInvalidCell (cfg.vDate.getD "%Y-%m-%d"))
    (some (cfg.vDate.getD "%Y-%m-%d"))
  have h3 := h "Time" (timeInvalidCell (cfg.vTime.getD "%H:%M:%S"))
    (some (cfg.vTime.getD "%H:%M:%S"))
  omega

/-- The findings list is never longer than the evaluated-expectation total. -/
lemma length_results_le (cfg : Config) (df : Dataset) :
    (validate_csv cfg df).results.length ≤
      cfg.required.length + cfg.unique_keys.length + cfg.col_types.length + 3 := by
  rw [validate_csv_results]
  simp only [List.length_append]
  have h1 := length_exist_null_le cfg.required df
  have h2 := length_uniqueFindings_le cfg.unique_keys df
  have h3 := length_typeFindings_le cfg.col_types df
  have h4 := length_strictFindings_le cfg df
  omega

-- ## Zero-row datasets

/-- In a well-formed dataset with zero rows, every series is empty. -/
lemma getCol_eq_nil_of_zero_rows {df : Dataset} (hwf : df.wf) (h0 : df.nrows = 0)
    (c : String) : df.getCol c = [] := by
  unfold Dataset.getCol
  cases hfind : df.columns.find? (fun p => p.1 == c) with
  | none => rfl
  | some p =>
    have hp : p ∈ df.columns := List.mem_of_find?_eq_some hfind
    have hlen : p.2.length = 0 := by rw [hwf p hp, h0]
    exact List.length_eq_zero.1 hlen

/-- On an empty series every branch of the coercion check succeeds. -/
lemma coerce_nil (t : String) : coerce_and_check_series [] t = ⟨true, 0, []⟩ := by
  unfold coerce_and_check_series
  split
  · rfl
  · split
    · simp
    · split
      · simp
      · split
        · simp
        · rfl

-- ## Claim theorems

/-- C1: for every schema and dataset, the report of `validate_csv`
satisfies: `success` is true iff the findings list is empty;
`evaluated_expectations = |required| + |unique_keys| + |columnTypes| + 3`;
`unsuccessful_expectations` equals the number of findings; and
`successful_expectations + unsuccessful_expectations =
evaluated_expectations` (the `max(0, ...)` clamp never fires because the
findings can never outnumber the expectations). -/
theorem claim_C1 (cfg : Config) (df : Dataset) :
    ((validate_csv cfg df).success = true ↔ (validate_csv cfg df).results = []) ∧
    (validate_csv cfg df).statistics.evaluated_expectations =
      cfg.required.length + cfg.unique_keys.length + cfg.col_types.length + 3 ∧
    (validate_csv cfg df).statistics.unsuccessful_expectations =
      (validate_csv cfg df).results.length ∧
    (validate_csv cfg df).statistics.successful_expectations +
        (validate_csv cfg df).statistics.unsuccessful_expectations =
      (validate_csv cfg df).statistics.evaluated_expectations := by
  have hb := length_results_le cfg df
  refine ⟨?_, rfl, rfl, ?_⟩
  · have hs : (validate_csv cfg df).success =
        ((validate_csv cfg df).results.length == 0) := rfl
    rw [hs]
    simp [List.length_eq_zero]
  · have hsucc : (validate_csv cfg df).statistics.successful_expectations =
        (max 0 (((cfg.required.length + cfg.unique_keys.length +
            cfg.col_types.length + 3 : Nat) : Int) -
          ((validate_csv cfg df).results.length : Int))).toNat := rfl
    have hu : (validate_csv cfg df).statistics.unsuccessful_expectations =
        (validate_csv cfg df).results.length := rfl
    have he : (validate_csv cfg df).statistics.evaluated_expectations =
        cfg.required.length + cfg.unique_keys.length + cfg.col_types.length + 3 := rfl
    rw [hsucc, hu, he]
    have hle : (((validate_csv cfg df).results.length : Int)) ≤
        ((cfg.required.length + cfg.unique_keys.length + cfg.col_types.length + 3 : Nat) : Int) := by
      exact_mod_cast hb
    rw [max_eq_right (by omega)]
    omega

/-- C7: for every well-formed dataset with zero rows, every finding in
the report is a `ColumnMissing` for a required or unique-key column that
is absent from the dataset; in particular no `NullValuesPresent`,
`DuplicateValues`, `TypeCoercionFailed` or `StrictFormatInvalid` finding
is ever emitted. -/
theorem claim_C7 (cfg : Config) (df : Dataset) (hwf : df.wf) (h0 : df.nrows = 0) :
    ∀ f ∈ (validate_csv cfg df).results, ∃ c r, f = Finding.columnMissing c r ∧
      (c ∈ cfg.required ∨ c ∈ cfg.unique_keys) ∧ df.hasCol c = false := by
  intro f hf
  rw [validate_csv_results] at hf
  simp only [List.append_assoc, List.mem_append] at hf
  rcases hf with hf | hf | hf | hf | hf
  · obtain ⟨c, hc, hcol, hform⟩ := mem_existenceFindings hf
    exact ⟨c, "column missing", hform, Or.inl hc, hcol⟩
  · obtain ⟨c, _, _, hpos, _⟩ := mem_nullFindings hf
    rw [getCol_eq_nil_of_zero_rows hwf h0 c] at hpos
    simp at hpos
  · obtain ⟨k, hk, hcase⟩ := mem_uniqueFindings hf
    rcases hcase with ⟨hcol, hform⟩ | ⟨_, hpos, _⟩
    · exact ⟨k, "column missing (for uniqueness check)", hform, Or.inr hk, hcol⟩
    · rw [getCol_eq_nil_of_zero_rows hwf h0 k] at hpos
      simp at hpos
  · obtain ⟨ct, _, _, hsuc, _⟩ := mem_typeFindings hf
    rw [getCol_eq_nil_of_zero_rows hwf h0 ct.1, coerce_nil] at hsuc
    cases hsuc
  · obtain ⟨name, mask, fmt, _, _, hpos, _⟩ := mem_strictFindings hf
    rw [getCol_eq_nil_of_zero_rows hwf h0 name] at hpos
    simp at hpos

/-- Witness for C7: a schema requiring (and keying on) `customer_id`
against an empty dataset that lacks the column. -/
theorem claim_C7_witness :
    (⟨[("other", [])], 0⟩ : Dataset).wf ∧
    ∀ f ∈ (validate_csv
        ⟨[("customer_id", "integer")], ["customer_id"], ["customer_id"], none, none, none⟩
        ⟨[("other", [])], 0⟩).results,
      ∃ c r, f = Finding.columnMissing c r ∧
        (c ∈ (⟨[("customer_id", "integer")], ["customer_id"], ["customer_id"],
            none, none, none⟩ : Config).required ∨
         c ∈ (⟨[("customer_id", "integer")], ["customer_id"], ["customer_id"],
            none, none, none⟩ : Config).unique_keys) ∧
        (⟨[("other", [])], 0⟩ : Dataset).hasCol c = false :=
  ⟨by decide, claim_C7 _ _ (by decide) rfl⟩

/-- C8: the CLI exits with `0` exactly when the report succeeded, `2`
exactly on a failing report without `--raise-on-fail`, `3` exactly on a
file-not-found (input or schema file), `4` exactly on a failing report
with `--raise-on-fail`, and `5` exactly on any other internal error; these
five outcomes are mutually exclusive (the code characterizations are
pairwise incompatible) and exhaustive (the exit code is always one of the
five). -/
theorem claim_C8 (o : CsvOutcome) (raiseOnFail : Bool) :
    (cliExitCode o raiseOnFail = 0 ↔ ∃ r, o = .ok r ∧ r.success = true) ∧
    (cliExitCode o raiseOnFail = 2 ↔
      ∃ r, o = .ok r ∧ r.success = false ∧ raiseOnFail = false) ∧
    (cliExitCode o raiseOnFail = 3 ↔ o = .fileNotFound) ∧
    (cliExitCode o raiseOnFail = 4 ↔
      ∃ r, o = .ok r ∧ r.success = false ∧ raiseOnFail = true) ∧
    (cliExitCode o raiseOnFail = 5 ↔ o = .otherError) ∧
    (cliExitCode o raiseOnFail = 0 ∨ cliExitCode o raiseOnFail = 2 ∨
      cliExitCode o raiseOnFail = 3 ∨ cliExitCode o raiseOnFail = 4 ∨
      cliExitCode o raiseOnFail = 5) := by
  cases o with
  | ok r =>
    cases hs : r.success <;> cases raiseOnFail <;>
      simp [cliExitCode, hs]
  | fileNotFound => simp [cliExitCode]
  | otherError => simp [cliExitCode]

/-- C9: the strict Email check always uses the built-in regex; the
`validations` section is consulted only for the Date and Time overrides,
so two runs differing only in the configured Email entry produce
identical reports. -/
theorem claim_C9 (cfg : Config) (df : Dataset) (e₁ e₂ : Option String) :
    validate_csv { cfg with vEmail := e₁ } df =
      validate_csv { cfg with vEmail := e₂ } df := rfl

/-- Filtering a stage whose every finding fails the predicate gives `[]`. -/
lemma filter_eq_nil_of_shapes {l : List Finding} {p : Finding → Bool}
    (h : ∀ f ∈ l, p f = false) : l.filter p = [] :=
  List.filter_eq_nil_iff.2 (by simpa using h)

/-- C10: a column required and used as a unique key, but absent from the
dataset, produces exactly two `ColumnMissing` findings — the existence
one (reason `"column missing"`) followed by the uniqueness one (reason
`"column missing (for uniqueness check)"`) — and both count among the
unsuccessful expectations. -/
theorem claim_C10 (cfg : Config) (df : Dataset) (c : String)
    (h1 : cfg.required.count c = 1) (h2 : cfg.unique_keys.count c = 1)
    (h3 : df.hasCol c = false) :
    ((validate_csv cfg df).results.filter (Finding.isMissingFor c)) =
      [Finding.columnMissing c "column missing",
       Finding.columnMissing c "column missing (for uniqueness check)"] ∧
    2 ≤ (validate_csv cfg df).statistics.unsuccessful_expectations := by
  have hmain : ((validate_csv cfg df).results.filter (Finding.isMissingFor c)) =
      [Finding.columnMissing c "column missing",
       Finding.columnMissing c "column missing (for uniqueness check)"] := by
    rw [validate_csv_results]
    simp only [List.filter_append]
    have hs1 : (existenceFindings cfg.required df).filter (Finding.isMissingFor c) =
        [Finding.columnMissing c "column missing"] := by
      unfold existenceFindings
      rw [filter_filterMap_count_one cfg.required _ _ c h1 ?h0]
      · rw [if_neg (by simp [h3])]
        simp [Finding.isMissingFor]
      case h0 =>
        intro x _ hxc f hf
        by_cases hcol : df.hasCol x
        · rw [if_pos hcol] at hf; cases hf
        · rw [if_neg hcol] at hf
          cases hf
          simp [Finding.isMissingFor, hxc]
    have hs2 : (nullFindings cfg.required df).filter (Finding.isMissingFor c) = [] := by
      refine filter_eq_nil_of_shapes (fun f hf => ?_)
      obtain ⟨c', _, _, _, hform⟩ := mem_nullFindings hf
      subst hform; rfl
    have hs3 : (uniqueFindings cfg.unique_keys df).filter (Finding.isMissingFor c) =
        [Finding.columnMissing c "column missing (for uniqueness check)"] := by
      unfold uniqueFindings
      rw [filter_filterMap_count_one cfg.unique_keys _ _ c h2 ?h0]
      · rw [if_neg (by simp [h3])]
        simp [Finding.isMissingFor]
      case h0 =>
        intro x _ hxc f hf
        by_cases hcol : df.hasCol x
        · rw [if_pos hcol] at hf
          by_cases hpos : 0 < ((df.getCol x).filter (dupMaskCell (df.getCol x))).length
          · rw [if_pos hpos] at hf; cases hf; rfl
          · rw [if_neg hpos] at hf; cases hf
        · rw [if_neg hcol] at hf
          cases hf
          simp [Finding.isMissingFor, hxc]
    have hs4 : (typeFindings cfg.col_types df).filter (Finding.isMissingFor c) = [] := by
      refine filter_eq_nil_of_shapes (fun f hf => ?_)
      obtain ⟨ct, _, _, _, hform⟩ := mem_typeFindings hf
      subst hform; rfl
    have hs5 : (strictFindings cfg df).filter (Finding.isMissingFor c) = [] := by
      refine filter_eq_nil_of_shapes (fun f hf => ?_)
      obtain ⟨name, mask, fmt, _, _, _, hform⟩ := mem_strictFindings hf
      subst hform; rfl
    rw [hs1, hs2, hs3, hs4, hs5]
    rfl
  refine ⟨hmain, ?_⟩
  have hlen : ((validate_csv cfg df).results.filter (Finding.isMissingFor c)).length = 2 := by
    rw [hmain]; rfl
  have := List.length_filter_le (Finding.isMissingFor c) (validate_csv cfg df).results
  have hu : (validate_csv cfg df).statistics.unsuccessful_expectations =
      (validate_csv cfg df).results.length := rfl
  omega

/-- Witness for C10: `customer_id` both required and a unique key, absent
from a one-column dataset. -/
theorem claim_C10_witness :
    ((validate_csv ⟨[], ["customer_id"], ["customer_id"], none, none, none⟩
        ⟨[("other", [some "1"])], 1⟩).results.filter (Finding.isMissingFor "customer_id")) =
      [Finding.columnMissing "customer_id" "column missing",
       Finding.columnMissing "customer_id" "column missing (for uniqueness check)"] ∧
    2 ≤ (validate_csv ⟨[], ["customer_id"], ["customer_id"], none, none, none⟩
        ⟨[("other", [some "1"])], 1⟩).statistics.unsuccessful_expectations :=
  claim_C10 _ _ _ (by decide) (by decide) (by decide)

/-- C5: for a required column `c`: a cell counts as null exactly when it
is the null marker or trims to empty; if `c` is absent, exactly one
existence `ColumnMissing` finding (reason `"column missing"`) is emitted
for it and no `NullValuesPresent` finding for it ever appears; if `c` is
present, a single `NullValuesPresent` finding with the null count and up
to 10 sample values in row order is emitted iff the null count is
positive. -/
theorem claim_C5 (cfg : Config) (df : Dataset) (c : String)
    (h1 : cfg.required.count c = 1) :
    (isNullCell none = true ∧ ∀ s : String, isNullCell (some s) = (pyStrip s == "")) ∧
    (df.hasCol c = false →
      ((validate_csv cfg df).results.filter (Finding.isExistMissingFor c)) =
        [Finding.columnMissing c "column missing"] ∧
      ((validate_csv cfg df).results.filter (Finding.isNullFor c)) = []) ∧
    (df.hasCol c = true →
      ((validate_csv cfg df).results.filter (Finding.isNullFor c)) =
        (if 0 < ((df.getCol c).filter isNullCell).length then
          [Finding.nullValuesPresent c ((df.getCol c).filter isNullCell).length
            ((((df.getCol c).filter isNullCell).take 10).map cellToStr)]
         else [])) := by
  have hreason : (("column missing (for uniqueness check)" : String) ==
      "column missing") = false := by decide
  refine ⟨⟨rfl, fun s => rfl⟩, ?_, ?_⟩
  · intro h3
    constructor
    · rw [validate_csv_results]
      simp only [List.filter_append]
      have hs1 : (existenceFindings cfg.required df).filter (Finding.isExistMissingFor c) =
          [Finding.columnMissing c "column missing"] := by
        unfold existenceFindings
        rw [filter_filterMap_count_one cfg.required _ _ c h1 ?h0]
        · rw [if_neg (by simp [h3])]
          simp [Finding.isExistMissingFor]
        case h0 =>
          intro x _ hxc f hf
          by_cases hcol : df.hasCol x
          · rw [if_pos hcol] at hf; cases hf
          · rw [if_neg hcol] at hf
            cases hf
            simp [Finding.isExistMissingFor, hxc]
      have hs2 : (nullFindings cfg.required df).filter (Finding.isExistMissingFor c) = [] := by
        refine filter_eq_nil_of_shapes (fun f hf => ?_)
        obtain ⟨c', _, _, _, hform⟩ := mem_nullFindings hf
        subst hform; rfl
      have hs3 : (uniqueFindings cfg.unique_keys df).filter (Finding.isExistMissingFor c) =
          [] := by
        refine filter_eq_nil_of_shapes (fun f hf => ?_)
        obtain ⟨k, _, hcase⟩ := mem_uniqueFindings hf
        rcases hcase with ⟨_, hform⟩ | ⟨_, _, hform⟩
        · subst hform
          simp [Finding.isExistMissingFor, hreason]
        · subst hform; rfl
      have hs4 : (typeFindings cfg.col_types df).filter (Finding.isExistMissingFor c) = [] := by
        refine filter_eq_nil_of_shapes (fun f hf => ?_)
        obtain ⟨ct, _, _, _, hform⟩ := mem_typeFindings hf
        subst hform; rfl
      have hs5 : (strictFindings cfg df).filter (Finding.isExistMissingFor c) = [] := by
        refine filter_eq_nil_of_shapes (fun f hf => ?_)
        obtain ⟨name, mask, fmt, _, _, _, hform⟩ := mem_strictFindings hf
        subst hform; rfl
      rw [hs1, hs2, hs3, hs4, hs5]
      rfl
    · rw [validate_csv_results]
      simp only [List.filter_append]
      have hs1 : (existenceFindings cfg.required df).filter (Finding.isNullFor c) = [] := by
        refine filter_eq_nil_of_shapes (fun f hf => ?_)
        obtain ⟨c', _, _, hform⟩ := mem_existenceFindings hf
        subst hform; rfl
      have hs2 : (nullFindings cfg.required df).filter (Finding.isNullFor c) = [] := by
        refine filter_eq_nil_of_shapes (fun f hf => ?_)
        obtain ⟨c', hc', hcol, _, hform⟩ := mem_nullFindings hf
        subst hform
        have hne : c' ≠ c := fun he => by rw [he, h3] at hcol; cases hcol
        simp [Finding.isNullFor, hne]
      have hs3 : (uniqueFindings cfg.unique_keys df).filter (Finding.isNullFor c) = [] := by
        refine filter_eq_nil_of_shapes (fun f hf => ?_)
        obtain ⟨k, _, hcase⟩ := mem_uniqueFindings hf
        rcases hcase with ⟨_, hform⟩ | ⟨_, _, hform⟩ <;> (subst hform; rfl)
      have hs4 : (typeFindings cfg.col_types df).filter (Finding.isNullFor c) = [] := by
        refine filter_eq_nil_of_shapes (fun f hf => ?_)
        obtain ⟨ct, _, _, _, hform⟩ := mem_typeFindings hf
        subst hform; rfl
      have hs5 : (strictFindings cfg df).filter (Finding.isNullFor c) = [] := by
        refine filter_eq_nil_of_shapes (fun f hf => ?_)
        obtain ⟨name, mask, fmt, _, _, _, hform⟩ := mem_strictFindings hf
        subst hform; rfl
      rw [hs1, hs2, hs3, hs4, hs5]
      rfl
  · intro h3
    rw [validate_csv_results]
    simp only [List.filter_append]
    have hs1 : (existenceFindings cfg.required df).filter (Finding.isNullFor c) = [] := by
      refine filter_eq_nil_of_shapes (fun f hf => ?_)
      obtain ⟨c', _, _, hform⟩ := mem_existenceFindings hf
      subst hform; rfl
    have hs2 : (nullFindings cfg.required df).filter (Finding.isNullFor c) =
        (if 0 < ((df.getCol c).filter isNullCell).length then
          [Finding.nullValuesPresent c ((df.getCol c).filter isNullCell).length
            ((((df.getCol c).filter isNullCell).take 10).map cellToStr)]
         else []) := by
      unfold nullFindings
      have hcount : (cfg.required.filter (fun x => df.hasCol x)).count c =
          cfg.required.count c := List.count_filter (by simpa using h3)
      rw [filter_filterMap_count_one _ _ _ c (by rw [hcount, h1]) ?h0]
      · by_cases hpos : 0 < ((df.getCol c).filter isNullCell).length
        · rw [if_pos hpos, if_pos hpos]
          simp [Finding.isNullFor]
        · rw [if_neg hpos, if_neg hpos]
          rfl
      case h0 =>
        intro x _ hxc f hf
        by_cases hpos : 0 < ((df.getCol x).filter isNullCell).length
        · rw [if_pos hpos] at hf
          cases hf
          simp [Finding.isNullFor, hxc]
        · rw [if_neg hpos] at hf; cases hf
    have hs3 : (uniqueFindings cfg.unique_keys df).filter (Finding.isNullFor c) = [] := by
      refine filter_eq_nil_of_shapes (fun f hf => ?_)
      obtain ⟨k, _, hcase⟩ := mem_uniqueFindings hf
      rcases hcase with ⟨_, hform⟩ | ⟨_, _, hform⟩ <;> (subst hform; rfl)
    have hs4 : (typeFindings cfg.col_types df).filter (Finding.isNullFor c) = [] := by
      refine filter_eq_nil_of_shapes (fun f hf => ?_)
      obtain ⟨ct, _, _, _, hform⟩ := mem_typeFindings hf
      subst hform; rfl
    have hs5 : (strictFindings cfg df).filter (Finding.isNullFor c) = [] := by
      refine filter_eq_nil_of_shapes (fun f hf => ?_)
      obtain ⟨name, mask, fmt, _, _, _, hform⟩ := mem_strictFindings hf
      subst hform; rfl
    rw [hs1, hs2, hs3, hs4, hs5]
    simp

/-- Witness for C5: `customer_id` required; once absent from the dataset
(missing-column branch), once present with two null cells (null-count
branch). -/
theorem claim_C5_witness :
    (((validate_csv ⟨[], ["customer_id"], [], none, none, none⟩
        ⟨[("x", [some "1"])], 1⟩).results.filter
          (Finding.isExistMissingFor "customer_id")) =
        [Finding.columnMissing "customer_id" "column missing"] ∧
      ((validate_csv ⟨[], ["customer_id"], [], none, none, none⟩
        ⟨[("x", [some "1"])], 1⟩).results.filter (Finding.isNullFor "customer_id")) = []) ∧
    ((validate_csv ⟨[], ["customer_id"], [], none, none, none⟩
        ⟨[("customer_id", [some "1", some " ", none])], 3⟩).results.filter
          (Finding.isNullFor "customer_id")) =
      (if 0 < (((⟨[("customer_id", [some "1", some " ", none])], 3⟩ : Dataset).getCol
            "customer_id").filter isNullCell).length then
        [Finding.nullValuesPresent "customer_id"
          (((⟨[("customer_id", [some "1", some " ", none])], 3⟩ : Dataset).getCol
              "customer_id").filter isNullCell).length
          (List.map cellToStr
            ((((⟨[("customer_id", [some "1", some " ", none])], 3⟩ : Dataset).getCol
              "customer_id").filter isNullCell).take 10))]
       else []) :=
  ⟨(claim_C5 ⟨[], ["customer_id"], [], none, none, none⟩
      ⟨[("x", [some "1"])], 1⟩ "customer_id" (by decide)).2.1 (by decide),
   (claim_C5 ⟨[], ["customer_id"], [], none, none, none⟩
      ⟨[("customer_id", [some "1", some " ", none])], 3⟩ "customer_id"
      (by decide)).2.2 (by decide)⟩

/-- C4: for a unique-key column present in the dataset, the uniqueness
check counts every occurrence of any value appearing at least twice (by
exact equality, no trimming: `dupMaskCell` is the count-at-least-2 mask)
and reports up to 20 distinct duplicated values in first-seen order; a
`DuplicateValues` finding is emitted iff that count is positive.  For key
values `[A, B, A, C, A]` the duplicate count is 3 and the sample values
are `[A]`; a trailing space makes values distinct. -/
theorem claim_C4 (cfg : Config) (df : Dataset) (k : String)
    (h1 : cfg.unique_keys.count k = 1) (h2 : df.hasCol k = true) :
    ((validate_csv cfg df).results.filter (Finding.isDupFor k)) =
      (if 0 < ((df.getCol k).filter (dupMaskCell (df.getCol k))).length then
        [Finding.duplicateValues k
          ((df.getCol k).filter (dupMaskCell (df.getCol k))).length
          ((firstSeenUnique [] ((df.getCol k).filter (dupMaskCell (df.getCol k)))).take 20)]
       else []) ∧
    (∀ c : Cell, dupMaskCell (df.getCol k) c = decide (2 ≤ (df.getCol k).count c)) ∧
    uniqueFindings ["key"]
        ⟨[("key", [some "A", some "B", some "A", some "C", some "A"])], 5⟩ =
      [Finding.duplicateValues "key" 3 [some "A"]] ∧
    uniqueFindings ["key"] ⟨[("key", [some "A", some "A "])], 2⟩ = [] := by
  refine ⟨?_, fun c => rfl, by decide, by decide⟩
  rw [validate_csv_results]
  simp only [List.filter_append]
  have hs1 : (existenceFindings cfg.required df).filter (Finding.isDupFor k) = [] := by
    refine filter_eq_nil_of_shapes (fun f hf => ?_)
    obtain ⟨c', _, _, hform⟩ := mem_existenceFindings hf
    subst hform; rfl
  have hs2 : (nullFindings cfg.required df).filter (Finding.isDupFor k) = [] := by
    refine filter_eq_nil_of_shapes (fun f hf => ?_)
    obtain ⟨c', _, _, _, hform⟩ := mem_nullFindings hf
    subst hform; rfl
  have hs3 : (uniqueFindings cfg.unique_keys df).filter (Finding.isDupFor k) =
      (if 0 < ((df.getCol k).filter (dupMaskCell (df.getCol k))).length then
        [Finding.duplicateValues k
          ((df.getCol k).filter (dupMaskCell (df.getCol k))).length
          ((firstSeenUnique [] ((df.getCol k).filter (dupMaskCell (df.getCol k)))).take 20)]
       else []) := by
    unfold uniqueFindings
    rw [filter_filterMap_count_one _ _ _ k h1 ?h0]
    · rw [if_pos h2]
      by_cases hpos : 0 < ((df.getCol k).filter (dupMaskCell (df.getCol k))).length
      · rw [if_pos hpos, if_pos hpos]
        simp [Finding.isDupFor]
      · rw [if_neg hpos, if_neg hpos]
        rfl
    case h0 =>
      intro x _ hxc f hf
      by_cases hcol : df.hasCol x
      · rw [if_pos hcol] at hf
        by_cases hpos : 0 < ((df.getCol x).filter (dupMaskCell (df.getCol x))).length
        · rw [if_pos hpos] at hf
          cases hf
          simp [Finding.isDupFor, hxc]
        · rw [if_neg hpos] at hf; cases hf
      · rw [if_neg hcol] at hf
        cases hf; rfl
  have hs4 : (typeFindings cfg.col_types df).filter (Finding.isDupFor k) = [] := by
    refine filter_eq_nil_of_shapes (fun f hf => ?_)
    obtain ⟨ct, _, _, _, hform⟩ := mem_typeFindings hf
    subst hform; rfl
  have hs5 : (strictFindings cfg df).filter (Finding.isDupFor k) = [] := by
    refine filter_eq_nil_of_shapes (fun f hf => ?_)
    obtain ⟨name, mask, fmt, _, _, _, hform⟩ := mem_strictFindings hf
    subst hform; rfl
  rw [hs1, hs2, hs3, hs4, hs5]
  simp

/-- Witness for C4: the spec's own example `[A, B, A, C, A]`. -/
theorem claim_C4_witness :
    ((validate_csv ⟨[], [], ["key"], none, none, none⟩
        ⟨[("key", [some "A", some "B", some "A", some "C", some "A"])], 5⟩).results.filter
      (Finding.isDupFor "key")) = [Finding.duplicateValues "key" 3 [some "A"]] :=
  (claim_C4 ⟨[], [], ["key"], none, none, none⟩
    ⟨[("key", [some "A", some "B", some "A", some "C", some "A"])], 5⟩ "key"
    (by decide) (by decide)).1

/-- Null/blank cells never count as coercion failures, so dropping them
first leaves every failure list unchanged. -/
lemma filter_nonblank_coercion (parse : String → Bool) (cells : List Cell) :
    (cells.filter isNonBlankCell).filter (cellFailsCoercion parse) =
      cells.filter (cellFailsCoercion parse) := by
  rw [List.filter_filter]
  refine List.filter_congr (fun c _ => ?_)
  cases c with
  | none => rfl
  | some s =>
    show (cellFailsCoercion parse (some s) && isNonBlankCell (some s)) = _
    by_cases hb : pyStrip s = ""
    · simp [cellFailsCoercion, isNonBlankCell, hb]
    · simp [cellFailsCoercion, isNonBlankCell, hb]

/-- The coercion check commutes with discarding null/blank cells. -/
lemma coerce_excludes_blank (cells : List Cell) (t : String) :
    coerce_and_check_series (cells.filter isNonBlankCell) t =
      coerce_and_check_series cells t := by
  unfold coerce_and_check_series
  rw [filter_nonblank_coercion pdParseNumeric, filter_nonblank_coercion pdParseTimestamp]

/-- An unrecognized declared type makes the coercion check succeed
vacuously. -/
lemma coerce_unknown (cells : List Cell) (t : String)
    (h : t ∉ ["string", "str", "object", "int", "integer", "float", "numeric",
      "number", "timestamp", "datetime", "date"]) :
    coerce_and_check_series cells t = ⟨true, 0, []⟩ := by
  simp only [List.mem_cons, List.not_mem_nil, or_false, not_or] at h
  obtain ⟨n1, n2, n3, n4, n5, n6, n7, n8, n9, n10, n11⟩ := h
  unfold coerce_and_check_series
  rw [if_neg (by tauto), if_neg (by tauto), if_neg (by tauto), if_neg (by tauto)]

/-- A failing coercion check has a positive failure count and a
recognized non-string type tag. -/
lemma coerce_failure_cases (cells : List Cell) (t : String)
    (h : (coerce_and_check_series cells t).success = false) :
    0 < (coerce_and_check_series cells t).failed_count ∧
      (t = "int" ∨ t = "integer" ∨ t = "float" ∨ t = "numeric" ∨ t = "number" ∨
        t = "timestamp" ∨ t = "datetime" ∨ t = "date") := by
  by_cases h1 : t = "string" ∨ t = "str" ∨ t = "object"
  · rw [show coerce_and_check_series cells t = ⟨true, 0, []⟩ from by
      unfold coerce_and_check_series; rw [if_pos h1]] at h
    cases h
  · by_cases h2 : t = "int" ∨ t = "integer"
    · have he : coerce_and_check_series cells t =
          ⟨decide ((cells.filter (cellFailsCoercion pdParseNumeric)).length = 0),
            (cells.filter (cellFailsCoercion pdParseNumeric)).length,
            ((cells.filter (cellFailsCoercion pdParseNumeric)).take 10).map cellToStr⟩ := by
        unfold coerce_and_check_series
        rw [if_neg h1, if_pos h2]
      rw [he] at h ⊢
      simp only [decide_eq_false_iff_not] at h
      refine ⟨?_, by tauto⟩
      show 0 < (cells.filter (cellFailsCoercion pdParseNumeric)).length
      omega
    · by_cases h3 : t = "float" ∨ t = "numeric" ∨ t = "number"
      · have he : coerce_and_check_series cells t =
            ⟨decide ((cells.filter (cellFailsCoercion pdParseNumeric)).length = 0),
              (cells.filter (cellFailsCoercion pdParseNumeric)).length,
              ((cells.filter (cellFailsCoercion pdParseNumeric)).take 10).map cellToStr⟩ := by
          unfold coerce_and_check_series
          rw [if_neg h1, if_neg h2, if_pos h3]
        rw [he] at h ⊢
        simp only [decide_eq_false_iff_not] at h
        refine ⟨?_, by tauto⟩
        show 0 < (cells.filter (cellFailsCoercion pdParseNumeric)).length
        omega
      · by_cases h4 : t = "timestamp" ∨ t = "datetime" ∨ t = "date"
        · have he : coerce_and_check_series cells t =
              ⟨decide ((cells.filter (cellFailsCoercion pdParseTimestamp)).length = 0),
                (cells.filter (cellFailsCoercion pdParseTimestamp)).length,
                ((cells.filter (cellFailsCoercion pdParseTimestamp)).take 10).map cellToStr⟩ := by
            unfold coerce_and_check_series
            rw [if_neg h1, if_neg h2, if_neg h3, if_pos h4]
          rw [he] at h ⊢
          simp only [decide_eq_false_iff_not] at h
          refine ⟨?_, by tauto⟩
          show 0 < (cells.filter (cellFailsCoercion pdParseTimestamp)).length
          omega
        · rw [show coerce_and_check_series cells t = ⟨true, 0, []⟩ from by
            unfold coerce_and_check_series
            rw [if_neg h1, if_neg h2, if_neg h3, if_neg h4]] at h
          cases h

/-- C6: a `TypeCoercionFailed` finding arises only for a declared column
present in the dataset, with a positive failure count and a recognized
integer/float/timestamp type tag; the check ignores null/blank cells
(dropping them changes nothing); declared type `string` always succeeds;
and any unrecognized type tag always succeeds (unknown type = no
constraint). -/
theorem claim_C6 (cfg : Config) (df : Dataset) :
    (∀ c t n s, Finding.typeCoercionFailed c t n s ∈ (validate_csv cfg df).results →
      df.hasCol c = true ∧ (c, t) ∈ cfg.col_types ∧ 0 < n ∧
        (t = "int" ∨ t = "integer" ∨ t = "float" ∨ t = "numeric" ∨ t = "number" ∨
          t = "timestamp" ∨ t = "datetime" ∨ t = "date")) ∧
    (∀ (cells : List Cell) (t : String),
      coerce_and_check_series (cells.filter isNonBlankCell) t =
        coerce_and_check_series cells t) ∧
    (∀ cells : List Cell, coerce_and_check_series cells "string" = ⟨true, 0, []⟩) ∧
    (∀ (cells : List Cell) (t : String),
      t ∉ ["string", "str", "object", "int", "integer", "float", "numeric",
        "number", "timestamp", "datetime", "date"] →
      coerce_and_check_series cells t = ⟨true, 0, []⟩) := by
  refine ⟨?_, coerce_excludes_blank, fun cells => rfl, coerce_unknown⟩
  intro c t n s hmem
  rw [validate_csv_results] at hmem
  simp only [List.append_assoc, List.mem_append] at hmem
  rcases hmem with h | h | h | h | h
  · obtain ⟨c', _, _, hform⟩ := mem_existenceFindings h
    cases hform
  · obtain ⟨c', _, _, _, hform⟩ := mem_nullFindings h
    cases hform
  · obtain ⟨k, _, hcase⟩ := mem_uniqueFindings h
    rcases hcase with ⟨_, hform⟩ | ⟨_, _, hform⟩ <;> cases hform
  · obtain ⟨ct, hct, hcol, hsuc, hform⟩ := mem_typeFindings h
    injection hform with hc ht hn hs
    subst hc; subst ht; subst hn
    obtain ⟨hpos, htag⟩ := coerce_failure_cases (df.getCol ct.1) ct.2 hsuc
    exact ⟨hcol, by simpa using hct, hpos, htag⟩
  · obtain ⟨name, mask, fmt, _, _, _, hform⟩ := mem_strictFindings h
    cases hform

/-- Witness for C6: an unrecognized tag `uuid` succeeds vacuously; the
blank-exclusion identity at a concrete series; and a concrete failing
integer column yields a finding whose shape the theorem constrains. -/
theorem claim_C6_witness :
    (coerce_and_check_series [some "x"] "uuid" = ⟨true, 0, []⟩) ∧
    (coerce_and_check_series ([none, some " ", some "abc"].filter isNonBlankCell) "integer" =
      coerce_and_check_series [none, some " ", some "abc"] "integer") ∧
    ((⟨[("v", [some "abc"])], 1⟩ : Dataset).hasCol "v" = true ∧
      ("v", "integer") ∈ (⟨[("v", "integer")], [], [], none, none, none⟩ : Config).col_types ∧
      0 < 1 ∧
      ("integer" = "int" ∨ "integer" = "integer" ∨ "integer" = "float" ∨
        "integer" = "numeric" ∨ "integer" = "number" ∨ "integer" = "timestamp" ∨
        "integer" = "datetime" ∨ "integer" = "date")) :=
  ⟨(claim_C6 ⟨[], [], [], none, none, none⟩ ⟨[], 0⟩).2.2.2 [some "x"] "uuid" (by decide),
   (claim_C6 ⟨[], [], [], none, none, none⟩ ⟨[], 0⟩).2.1 [none, some " ", some "abc"] "integer",
   (claim_C6 ⟨[("v", "integer")], [], [], none, none, none⟩ ⟨[("v", [some "abc"])], 1⟩).1
     "v" "integer" 1 ["abc"] (by decide)⟩

/-- Stripping only removes characters, so every character of `pyStrip s`
occurs in `s`. -/
lemma mem_pyStrip_subset (s : String) : ∀ ch ∈ (pyStrip s).toList, ch ∈ s.toList := by
  intro ch hch
  have h1 : (pyStrip s).toList =
      ((s.toList.dropWhile Char.isWhitespace).reverse.dropWhile
        Char.isWhitespace).reverse := rfl
  rw [h1, List.mem_reverse] at hch
  have h2 := (List.dropWhile_sublist Char.isWhitespace).subset hch
  rw [List.mem_reverse] at h2
  exact (List.dropWhile_sublist Char.isWhitespace).subset h2

/-- C2 counterexample: the claim asserts that addresses with consecutive
dots are rejected, but `_EMAIL_RE` places `.` inside both the local-part
and the domain character classes, so `a@b..com` passes the strict email
check. -/
theorem claim_C2_counterexample :
    validate_email_strict (some "a@b..com") = true ∧
    validate_email_strict (some "a..b@c.com") = true := by
  exact ⟨by decide, by decide⟩

/-- C2 (amended): when an `Email` column is present, a cell is invalid
exactly when the strict email check fails on it, i.e. when it is
null/blank or fails the conservative pattern `local-part@domain.tld`:
`a@b.com` is valid, `a@b` is invalid (no top-level domain), `a b@c.com`
is invalid (embedded space), and any value without an `@` is rejected
(consecutive dots, however, are accepted by the pattern); exactly one
`StrictFormatInvalid` finding for `Email` is emitted iff the invalid
count is positive. -/
theorem claim_C2 (cfg : Config) (df : Dataset) (s : String)
    (hcol : df.hasCol "Email" = true) (hs : ∀ ch ∈ s.toList, ch ≠ '@') :
    ((validate_csv cfg df).results.filter (Finding.isStrictFor "Email")) =
      (if 0 < ((df.getCol "Email").filter emailInvalidCell).length then
        [Finding.strictFormatInvalid "Email"
          ((df.getCol "Email").filter emailInvalidCell).length
          ((((df.getCol "Email").filter emailInvalidCell).take 10).map cellToStr) none]
       else []) ∧
    (∀ c : Cell, emailInvalidCell c = !(validate_email_strict c)) ∧
    validate_email_strict none = false ∧
    validate_email_strict (some "a@b.com") = true ∧
    validate_email_strict (some "a@b") = false ∧
    validate_email_strict (some "a b@c.com") = false ∧
    validate_email_strict (some s) = false := by
  refine ⟨?_, ?_, rfl, by decide, by decide, by decide, ?_⟩
  · rw [validate_csv_results]
    simp only [List.filter_append]
    have hs1 : (existenceFindings cfg.required df).filter (Finding.isStrictFor "Email") =
        [] := by
      refine filter_eq_nil_of_shapes (fun f hf => ?_)
      obtain ⟨c', _, _, hform⟩ := mem_existenceFindings hf
      subst hform; rfl
    have hs2 : (nullFindings cfg.required df).filter (Finding.isStrictFor "Email") = [] := by
      refine filter_eq_nil_of_shapes (fun f hf => ?_)
      obtain ⟨c', _, _, _, hform⟩ := mem_nullFindings hf
      subst hform; rfl
    have hs3 : (uniqueFindings cfg.unique_keys df).filter (Finding.isStrictFor "Email") =
        [] := by
      refine filter_eq_nil_of_shapes (fun f hf => ?_)
      obtain ⟨k, _, hcase⟩ := mem_uniqueFindings hf
      rcases hcase with ⟨_, hform⟩ | ⟨_, _, hform⟩ <;> (subst hform; rfl)
    have hs4 : (typeFindings cfg.col_types df).filter (Finding.isStrictFor "Email") = [] := by
      refine filter_eq_nil_of_shapes (fun f hf => ?_)
      obtain ⟨ct, _, _, _, hform⟩ := mem_typeFindings hf
      subst hform; rfl
    have hdate : ((strictFindingOpt "Date" (dateInvalidCell (cfg.vDate.getD "%Y-%m-%d"))
        (some (cfg.vDate.getD "%Y-%m-%d")) df).toList).filter
          (Finding.isStrictFor "Email") = [] := by
      refine filter_eq_nil_of_shapes (fun f hf => ?_)
      obtain ⟨_, _, hform⟩ := mem_strictFindingOpt hf
      subst hform; rfl
    have htime : ((strictFindingOpt "Time" (timeInvalidCell (cfg.vTime.getD "%H:%M:%S"))
        (some (cfg.vTime.getD "%H:%M:%S")) df).toList).filter
          (Finding.isStrictFor "Email") = [] := by
      refine filter_eq_nil_of_shapes (fun f hf => ?_)
      obtain ⟨_, _, hform⟩ := mem_strictFindingOpt hf
      subst hform; rfl
    have hemail : ((strictFindingOpt "Email" emailInvalidCell none df).toList).filter
        (Finding.isStrictFor "Email") =
        (if 0 < ((df.getCol "Email").filter emailInvalidCell).length then
          [Finding.strictFormatInvalid "Email"
            ((df.getCol "Email").filter emailInvalidCell).length
            ((((df.getCol "Email").filter emailInvalidCell).take 10).map cellToStr) none]
         else []) := by
      unfold strictFindingOpt
      rw [if_pos hcol]
      by_cases hpos : 0 < ((df.getCol "Email").filter emailInvalidCell).length
      · rw [if_pos hpos, if_pos hpos]
        simp [Finding.isStrictFor]
      · rw [if_neg hpos, if_neg hpos]
        rfl
    rw [hs1, hs2, hs3, hs4]
    unfold strictFindings
    simp only [List.filter_append]
    rw [hemail, hdate, htime]
    simp
  · intro c
    cases c with
    | none => rfl
    | some s' =>
      by_cases hb : pyStrip s' = ""
      · simp [emailInvalidCell, validate_email_strict, hb]
      · simp [emailInvalidCell, validate_email_strict, hb]
  · by_cases hb : pyStrip s = ""
    · simp [validate_email_strict, hb]
    · have hall : ∀ ch ∈ (pyStrip s).toList, (ch != '@') = true := by
        intro ch hch
        simpa using hs ch (mem_pyStrip_subset s ch hch)
      have htw : (pyStrip s).toList.takeWhile (fun c => c != '@') = (pyStrip s).toList :=
        List.takeWhile_eq_self_iff.2 hall
      have hm : matchesEmailRe (pyStrip s).toList = false := by
        show (match (pyStrip s).toList.drop
            ((pyStrip s).toList.takeWhile (fun c => c != '@')).length with
          | [] => false
          | _ :: d =>
            decide (((pyStrip s).toList.takeWhile (fun c => c != '@')) ≠ []) &&
              ((pyStrip s).toList.takeWhile (fun c => c != '@')).all isLocalChar &&
              matchesDomainRe d) = false
        rw [htw, List.drop_length]
      show (if pyStrip s = "" then false else matchesEmailRe (pyStrip s).toList) = false
      rw [if_neg hb, hm]

/-- Witness for C2: an `Email` column with one bad and one good address
(the bad cell is the sample), instantiated with the `@`-free string
`abc`. -/
theorem claim_C2_witness :
    ((validate_csv ⟨[], [], [], none, none, none⟩
        ⟨[("Email", [some "a@b", some "x@y.com"])], 2⟩).results.filter
      (Finding.isStrictFor "Email")) =
      [Finding.strictFormatInvalid "Email" 1 ["a@b"] none] :=
  (claim_C2 ⟨[], [], [], none, none, none⟩
    ⟨[("Email", [some "a@b", some "x@y.com"])], 2⟩ "abc" (by decide) (by decide)).1

-- ## Characterizing the strptime interpreter on the default date format

lemma takeDigits_eq_some {n v : Nat} {cs rest : List Char}
    (h : takeDigits n cs = some (v, rest)) :
    ∃ ds, cs = ds ++ rest ∧ ds.length = n ∧ ds.all Char.isDigit ∧ digitsToNat ds = v := by
  have h2 : (if (cs.take n).length = n ∧ (cs.take n).all Char.isDigit then
      some (digitsToNat (cs.take n), cs.drop n) else none) = some (v, rest) := h
  split at h2
  · rename_i hcond
    injection h2 with h'
    injection h' with hv hr
    refine ⟨cs.take n, ?_, hcond.1, hcond.2, hv⟩
    rw [← hr]
    exact (List.take_append_drop n cs).symm
  · cases h2

lemma takeDigits_append {n : Nat} {ds : List Char} (rest : List Char)
    (hlen : ds.length = n) (hdig : ds.all Char.isDigit) :
    takeDigits n (ds ++ rest) = some (digitsToNat ds, rest) := by
  unfold takeDigits
  subst hlen
  rw [List.take_left, List.drop_left]
  rw [if_pos ⟨rfl, hdig⟩]

lemma takeNum_eq_some {n lo hi v : Nat} {cs rest : List Char}
    (h : takeNum n lo hi cs = some (v, rest)) :
    takeDigits n cs = some (v, rest) ∧ lo ≤ v ∧ v ≤ hi := by
  unfold takeNum at h
  cases htd : takeDigits n cs with
  | none => rw [htd] at h; cases h
  | some p =>
    obtain ⟨pv, pr⟩ := p
    rw [htd] at h
    have h' : (if lo ≤ pv ∧ pv ≤ hi then some (pv, pr) else none) = some (v, rest) := h
    split at h'
    · rename_i hcond
      injection h' with h''
      cases h''
      exact ⟨rfl, hcond⟩
    · cases h'

lemma takeNum_append {n lo hi : Nat} {ds : List Char} (rest : List Char)
    (hlen : ds.length = n) (hdig : ds.all Char.isDigit)
    (hlo : lo ≤ digitsToNat ds) (hhi : digitsToNat ds ≤ hi) :
    takeNum n lo hi (ds ++ rest) = some (digitsToNat ds, rest) := by
  unfold takeNum
  rw [takeDigits_append rest hlen hdig]
  exact if_pos ⟨hlo, hhi⟩

lemma stepY {fs cs : List Char} {tm : TMFields} :
    strptimeAux ('%' :: 'Y' :: fs) cs tm = true ↔
      ∃ y rest, takeDigits 4 cs = some (y, rest) ∧
        strptimeAux fs rest { tm with y := y } = true := by
  have h0 : strptimeAux ('%' :: 'Y' :: fs) cs tm =
      (match takeDigits 4 cs with
       | some (v, rest) => strptimeAux fs rest { tm with y := v }
       | none => false) := rfl
  constructor
  · intro h
    rw [h0] at h
    cases h4 : takeDigits 4 cs with
    | none => rw [h4] at h; exact Bool.noConfusion h
    | some p =>
      obtain ⟨y, rest⟩ := p
      rw [h4] at h
      exact ⟨y, rest, rfl, h⟩
  · rintro ⟨y, rest, h4, h⟩
    rw [h0, h4]
    exact h

lemma stepDash {fs cs : List Char} {tm : TMFields} :
    strptimeAux ('-' :: fs) cs tm = true ↔
      ∃ cs', cs = '-' :: cs' ∧ strptimeAux fs cs' tm = true := by
  have h0 : strptimeAux ('-' :: fs) cs tm =
      (match cs with
       | c' :: cs' => ('-' == c') && strptimeAux fs cs' tm
       | [] => false) := rfl
  constructor
  · intro h
    rw [h0] at h
    cases cs with
    | nil => exact Bool.noConfusion h
    | cons c' cs' =>
      have h' : (('-' == c') && strptimeAux fs cs' tm) = true := h
      obtain ⟨h1, h2⟩ := Bool.and_eq_true_iff.1 h'
      have hc : '-' = c' := by simpa using h1
      exact ⟨cs', by rw [← hc], h2⟩
  · rintro ⟨cs', rfl, h⟩
    rw [h0]
    simpa using h

lemma stepM {fs cs : List Char} {tm : TMFields} :
    strptimeAux ('%' :: 'm' :: fs) cs tm = true ↔
      ∃ v rest, (takeNum 2 1 12 cs = some (v, rest) ∨ takeNum 1 1 12 cs = some (v, rest)) ∧
        strptimeAux fs rest { tm with mo := v } = true := by
  have h0 : strptimeAux ('%' :: 'm' :: fs) cs tm =
      ((match takeNum 2 1 12 cs with
        | some (v, rest) => strptimeAux fs rest { tm with mo := v }
        | none => false) ||
       (match takeNum 1 1 12 cs with
        | some (v, rest) => strptimeAux fs rest { tm with mo := v }
        | none => false)) := rfl
  constructor
  · intro h
    rw [h0] at h
    rcases Bool.or_eq_true_iff.1 h with h' | h'
    · cases h2 : takeNum 2 1 12 cs with
      | none => rw [h2] at h'; exact Bool.noConfusion h'
      | some p =>
        obtain ⟨v, rest⟩ := p
        rw [h2] at h'
        exact ⟨v, rest, Or.inl rfl, h'⟩
    · cases h1 : takeNum 1 1 12 cs with
      | none => rw [h1] at h'; exact Bool.noConfusion h'
      | some p =>
        obtain ⟨v, rest⟩ := p
        rw [h1] at h'
        exact ⟨v, rest, Or.inr rfl, h'⟩
  · rintro ⟨v, rest, hor, h⟩
    rw [h0]
    apply Bool.or_eq_true_iff.2
    rcases hor with h2 | h1
    · left; rw [h2]; exact h
    · right; rw [h1]; exact h

lemma stepD {fs cs : List Char} {tm : TMFields} :
    strptimeAux ('%' :: 'd' :: fs) cs tm = true ↔
      ∃ v rest, (takeNum 2 1 31 cs = some (v, rest) ∨ takeNum 1 1 31 cs = some (v, rest) ∨
          (∃ cs', cs = ' ' :: cs' ∧ takeNum 1 1 9 cs' = some (v, rest))) ∧
        strptimeAux fs rest { tm with dy := v } = true := by
  have h0 : strptimeAux ('%' :: 'd' :: fs) cs tm =
      ((match takeNum 2 1 31 cs with
        | some (v, rest) => strptimeAux fs rest { tm with dy := v }
        | none => false) ||
       (match takeNum 1 1 31 cs with
        | some (v, rest) => strptimeAux fs rest { tm with dy := v }
        | none => false) ||
       (match cs with
        | c0 :: cs' =>
          (c0 == ' ') &&
            (match takeNum 1 1 9 cs' with
             | some (v, rest) => strptimeAux fs rest { tm with dy := v }
             | none => false)
        | [] => false)) := rfl
  constructor
  · intro h
    rw [h0] at h
    rcases Bool.or_eq_true_iff.1 h with h' | h'
    · rcases Bool.or_eq_true_iff.1 h' with hA | hB
      · cases h2 : takeNum 2 1 31 cs with
        | none => rw [h2] at hA; exact Bool.noConfusion hA
        | some p =>
          obtain ⟨v, rest⟩ := p
          rw [h2] at hA
          exact ⟨v, rest, Or.inl rfl, hA⟩
      · cases h1 : takeNum 1 1 31 cs with
        | none => rw [h1] at hB; exact Bool.noConfusion hB
        | some p =>
          obtain ⟨v, rest⟩ := p
          rw [h1] at hB
          exact ⟨v, rest, Or.inr (Or.inl rfl), hB⟩
    · cases cs with
      | nil => exact Bool.noConfusion h'
      | cons c0 cs' =>
        have h3 : ((c0 == ' ') &&
            (match takeNum 1 1 9 cs' with
             | some (v, rest) => strptimeAux fs rest { tm with dy := v }
             | none => false)) = true := h'
        obtain ⟨hc0, hm⟩ := Bool.and_eq_true_iff.1 h3
        have hc0' : c0 = ' ' := by simpa using hc0
        subst hc0'
        cases hsp : takeNum 1 1 9 cs' with
        | none => rw [hsp] at hm; exact Bool.noConfusion hm
        | some p =>
          obtain ⟨v, rest⟩ := p
          rw [hsp] at hm
          exact ⟨v, rest, Or.inr (Or.inr ⟨cs', rfl, hsp⟩), hm⟩
  · rintro ⟨v, rest, hor, h⟩
    rw [h0]
    apply Bool.or_eq_true_iff.2
    rcases hor with h2 | h1 | hsp
    · left
      apply Bool.or_eq_true_iff.2
      left; rw [h2]; exact h
    · left
      apply Bool.or_eq_true_iff.2
      right; rw [h1]; exact h
    · right
      obtain ⟨cs', rfl, hsp'⟩ := hsp
      show ((' ' == ' ') &&
          (match takeNum 1 1 9 cs' with
           | some (v, rest) => strptimeAux fs rest { tm with dy := v }
           | none => false)) = true
      rw [hsp']
      simpa using h

lemma daysInMonth_le_31 (y m : Nat) : daysInMonth y m ≤ 31 := by
  unfold daysInMonth
  split
  · split <;> omega
  · split <;> omega

/-- The interpreter on the default format `"%Y-%m-%d"` accepts exactly
the strings of shape `SpecLooseYMD`. -/
lemma strptime_default_ymd_iff (cs : List Char) :
    strptimeAux "%Y-%m-%d".toList cs tmDefault = true ↔ SpecLooseYMD cs := by
  have hfmt : "%Y-%m-%d".toList = ['%', 'Y', '-', '%', 'm', '-', '%', 'd'] := rfl
  rw [hfmt]
  constructor
  · intro h
    obtain ⟨y, rest1, h4, h⟩ := stepY.1 h
    obtain ⟨rest2, hcs1, h⟩ := stepDash.1 h
    obtain ⟨m, rest3, hm, h⟩ := stepM.1 h
    obtain ⟨rest4, hcs2, h⟩ := stepDash.1 h
    obtain ⟨d, rest5, hd, h⟩ := stepD.1 h
    have hend : (rest5.isEmpty && tmValid ⟨y, m, d, 0, 0, 0⟩) = true := h
    obtain ⟨hre, htm⟩ := Bool.and_eq_true_iff.1 hend
    have hrest5 : rest5 = [] := by
      cases rest5
      · rfl
      · cases hre
    have htm' : 1 ≤ y ∧ y ≤ 9999 ∧ d ≤ daysInMonth y m := by
      unfold tmValid at htm
      simp only [Bool.and_eq_true, decide_eq_true_eq] at htm
      exact ⟨htm.1.1.1, htm.1.1.2, htm.1.2⟩
    obtain ⟨ys, hcs0, hylen, hydig, hyval⟩ := takeDigits_eq_some h4
    have hm' : ∃ ms, rest2 = ms ++ rest3 ∧ 1 ≤ ms.length ∧ ms.length ≤ 2 ∧
        ms.all Char.isDigit ∧ digitsToNat ms = m ∧ 1 ≤ m ∧ m ≤ 12 := by
      rcases hm with h2 | h1
      · obtain ⟨htd, hlo, hhi⟩ := takeNum_eq_some h2
        obtain ⟨ms, hr, hlen, hdig, hval⟩ := takeDigits_eq_some htd
        exact ⟨ms, hr, by omega, by omega, hdig, hval, hlo, hhi⟩
      · obtain ⟨htd, hlo, hhi⟩ := takeNum_eq_some h1
        obtain ⟨ms, hr, hlen, hdig, hval⟩ := takeDigits_eq_some htd
        exact ⟨ms, hr, by omega, by omega, hdig, hval, hlo, hhi⟩
    obtain ⟨ms, hrest2, hml1, hml2, hmdig, hmval, hm1, hm12⟩ := hm'
    have hd' : ∃ dl, rest4 = dl ++ rest5 ∧
        ((1 ≤ dl.length ∧ dl.length ≤ 2 ∧ dl.all Char.isDigit ∧ digitsToNat dl = d) ∨
         (∃ c, dl = [' ', c] ∧ c.isDigit ∧ digitsToNat [c] = d ∧ d ≤ 9)) ∧ 1 ≤ d := by
      rcases hd with h2 | h1 | hsp
      · obtain ⟨htd, hlo, _⟩ := takeNum_eq_some h2
        obtain ⟨dl, hr, hlen, hdig, hval⟩ := takeDigits_eq_some htd
        exact ⟨dl, hr, Or.inl ⟨by omega, by omega, hdig, hval⟩, hlo⟩
      · obtain ⟨htd, hlo, _⟩ := takeNum_eq_some h1
        obtain ⟨dl, hr, hlen, hdig, hval⟩ := takeDigits_eq_some htd
        exact ⟨dl, hr, Or.inl ⟨by omega, by omega, hdig, hval⟩, hlo⟩
      · obtain ⟨cs', hr4, hnum⟩ := hsp
        obtain ⟨htd, hlo, hhi⟩ := takeNum_eq_some hnum
        obtain ⟨dc, hr, hlen, hdig, hval⟩ := takeDigits_eq_some htd
        obtain ⟨c, rfl⟩ := List.length_eq_one.1 hlen
        refine ⟨[' ', c], ?_, Or.inr ⟨c, rfl, ?_, hval, hhi⟩, hlo⟩
        · rw [hr4, hr]; rfl
        · simpa using hdig
    obtain ⟨dl, hrest4, hdshape, hd1⟩ := hd'
    refine ⟨ys, ms, dl, ?_, hylen, hydig, hml1, hml2, hmdig, ?_, ?_, ?_, ?_,
      d, hdshape, hd1, ?_⟩
    · rw [hcs0, hcs1, hrest2, hcs2, hrest4, hrest5, List.append_nil]
    · rw [hyval]; exact htm'.1
    · rw [hyval]; exact htm'.2.1
    · rw [hmval]; exact hm1
    · rw [hmval]; exact hm12
    · rw [hyval, hmval]; exact htm'.2.2
  · rintro ⟨ys, ms, dl, hcs, hylen, hydig, hml1, hml2, hmdig,
      hy1, hy9999, hm1, hm12, dval, hdshape, hd1, hdval⟩
    subst hcs
    apply stepY.2
    refine ⟨digitsToNat ys, '-' :: (ms ++ '-' :: dl), takeDigits_append _ hylen hydig, ?_⟩
    apply stepDash.2
    refine ⟨ms ++ '-' :: dl, rfl, ?_⟩
    apply stepM.2
    refine ⟨digitsToNat ms, '-' :: dl, ?_, ?_⟩
    · rcases show ms.length = 1 ∨ ms.length = 2 by omega with h1 | h2
      · exact Or.inr (takeNum_append ('-' :: dl) h1 hmdig hm1 hm12)
      · exact Or.inl (takeNum_append ('-' :: dl) h2 hmdig hm1 hm12)
    · apply stepDash.2
      refine ⟨dl, rfl, ?_⟩
      apply stepD.2
      have hd31 : dval ≤ 31 := le_trans hdval (daysInMonth_le_31 _ _)
      refine ⟨dval, [], ?_, ?_⟩
      · rcases hdshape with ⟨hdl1, hdl2, hddig, hdvaleq⟩ | ⟨c, rfl, hcdig, hcval, hc9⟩
        · have hlo : 1 ≤ digitsToNat dl := by omega
          have hhi : digitsToNat dl ≤ 31 := by omega
          rcases show dl.length = 1 ∨ dl.length = 2 by omega with h1 | h2
          · refine Or.inr (Or.inl ?_)
            have := takeNum_append ([] : List Char) h1 hddig hlo hhi
            rw [List.append_nil, hdvaleq] at this
            exact this
          · refine Or.inl ?_
            have := takeNum_append ([] : List Char) h2 hddig hlo hhi
            rw [List.append_nil, hdvaleq] at this
            exact this
        · refine Or.inr (Or.inr ⟨[c], rfl, ?_⟩)
          have hclen : ([c] : List Char).length = 1 := rfl
          have hcdig' : ([c] : List Char).all Char.isDigit := by simpa using hcdig
          have hlo : 1 ≤ digitsToNat [c] := by omega
          have hhi : digitsToNat [c] ≤ 9 := by omega
          have := takeNum_append ([] : List Char) hclen hcdig' hlo hhi
          rw [List.append_nil, hcval] at this
          exact this
      · show (List.isEmpty ([] : List Char) &&
            tmValid ⟨digitsToNat ys, digitsToNat ms, dval, 0, 0, 0⟩) = true
        unfold tmValid
        simp only [List.isEmpty_nil, Bool.true_and, Bool.and_eq_true, decide_eq_true_eq]
        exact ⟨⟨⟨hy1, hy9999⟩, hdval⟩, by omega⟩

/-- C3 counterexample: the claim requires the cell to "match the pattern
YYYY-MM-DD exactly", but CPython's `strptime` lets `%m` and `%d` match a
single digit, so `validate_date_strict` accepts `2024-2-9`, which does
not match the zero-padded pattern. -/
theorem claim_C3_counterexample :
    validate_date_strict (some "2024-2-9") "%Y-%m-%d" = true ∧
    specExactYMD "2024-2-9" = false := by
  exact ⟨by decide, by decide⟩

/-- C3 (amended): with the default format (no override configured), a
cell passes the strict date check exactly when it is non-null, trims to a
non-empty string, and after trimming consists of a 4-digit year, a 1–2
digit month, and a day written either as 1–2 digits or as a space
followed by a single nonzero digit (CPython's `%d` regex carries the
space-padded alternative `" [1-9]"`), separated by hyphens, naming a
calendar date that exists: `2024-02-29` is valid (leap year),
`2024-02-30` is invalid, `24-02-29` is invalid (wrong pattern), and zero
padding of the day is not required (`2024-2-9` and `2024-02- 9` are
valid).  When no override is configured the Date mask used by
`validate_csv` is exactly the complement of this check. -/
theorem claim_C3 :
    (∀ s : String, validate_date_strict (some s) "%Y-%m-%d" = true ↔
      (pyStrip s ≠ "" ∧ SpecLooseYMD (pyStrip s).toList)) ∧
    validate_date_strict none "%Y-%m-%d" = false ∧
    (∀ cfg : Config, cfg.vDate = none → ∀ c : Cell,
      dateInvalidCell (cfg.vDate.getD "%Y-%m-%d") c =
        !(validate_date_strict c "%Y-%m-%d")) ∧
    validate_date_strict (some "2024-02-29") "%Y-%m-%d" = true ∧
    validate_date_strict (some "2024-02-30") "%Y-%m-%d" = false ∧
    validate_date_strict (some "24-02-29") "%Y-%m-%d" = false ∧
    validate_date_strict (some "2024-2-9") "%Y-%m-%d" = true ∧
    validate_date_strict (some "2024-02- 9") "%Y-%m-%d" = true := by
  refine ⟨?_, rfl, ?_, by decide, by decide, by decide, by decide, by decide⟩
  · intro s
    constructor
    · intro h
      have h' : (if pyStrip s = "" then false
          else strptimeBool "%Y-%m-%d" (pyStrip s)) = true := h
      by_cases hb : pyStrip s = ""
      · rw [if_pos hb] at h'
        cases h'
      · rw [if_neg hb] at h'
        exact ⟨hb, (strptime_default_ymd_iff _).1 h'⟩
    · rintro ⟨hb, hspec⟩
      show (if pyStrip s = "" then false else strptimeBool "%Y-%m-%d" (pyStrip s)) = true
      rw [if_neg hb]
      exact (strptime_default_ymd_iff _).2 hspec
  · rintro cfg hnone c
    rw [hnone]
    cases c with
    | none => rfl
    | some s =>
      by_cases hb : pyStrip s = ""
      · simp [dateInvalidCell, validate_date_strict, hb]
      · simp [dateInvalidCell, validate_date_strict, hb]

/-- Witness for C3 (amended): the no-override mask at a concrete invalid
cell, obtained by instantiating the theorem. -/
theorem claim_C3_witness :
    dateInvalidCell ((none : Option String).getD "%Y-%m-%d") (some "2024-02-30") =
      !(validate_date_strict (some "2024-02-30") "%Y-%m-%d") :=
  claim_C3.2.2.1 ⟨[], [], [], none, none, none⟩ rfl (some "2024-02-30")

end EtlValidate
